import Mathlib

/-!
# Jool (SIIT / NAT64 translator): sending, interface blacklist, session dump

A shallow embedding of

* `src/mod/common/send_packet.c`  (`get_nexthop_mtu`, `handle_gso`,
  `whine_if_too_big`, `sendpkt_send`),
* `src/mod/siit/blacklist4.c`     (`interface_contains`),
* `src/mod/common/nl/session.c`   (`session_entry_to_userspace`,
  `handle_session_display`),

followed by the properties proved about them.

C `unsigned int` values are natural numbers reduced modulo `2 ^ 32` where they
are read or computed; `unsigned long` values are reduced modulo
`2 ^ BITS_PER_LONG`.
-/

namespace Jool

/-! ## Machine arithmetic -/

/-- Reduction of a natural number to a C `unsigned int` (32 bits). -/
def u32 (n : Nat) : Nat := n % 2 ^ 32

/-- Addition of two `unsigned int` values (wraps modulo `2 ^ 32`). -/
def u32_add (a b : Nat) : Nat := (a + b) % 2 ^ 32

/-- Subtraction of two `unsigned int` values (wraps modulo `2 ^ 32`). -/
def u32_sub (a b : Nat) : Nat := (a + (2 ^ 32 - b % 2 ^ 32)) % 2 ^ 32

/-! ## Data model of the packet path -/

/-- Modelled from the spec: the `verdict` enumeration (declared in a header that
is not part of the sources at hand); section 4.G lists its four values. -/
inductive verdict
  | VERDICT_CONTINUE
  | VERDICT_UNTRANSLATABLE
  | VERDICT_DROP
  | VERDICT_STOLEN
  deriving DecidableEq, Repr

/-- Modelled from the spec: the layer-3 protocol tag of a packet (section 4.A);
the two labels are the ones `whine_if_too_big` switches over. -/
inductive l3_protocol
  | L3PROTO_IPV6
  | L3PROTO_IPV4
  deriving DecidableEq, Repr

/-- Modelled from the spec: the statistics counters named by `send_packet.c`
(the full enumeration lives in a header that is not part of the sources). -/
inductive jool_stat
  | JSTAT_FAILED_ROUTES
  | JSTAT_PKT_TOO_BIG
  | JSTAT_DST_OUTPUT
  deriving DecidableEq, Repr

/-- Modelled from the spec: ICMP error kinds the pipeline may ask the host to
emit; `send_packet.c` only names `ICMPERR_FRAG_NEEDED`. -/
inductive icmp_error_code
  | ICMPERR_NONE
  | ICMPERR_FRAG_NEEDED
  deriving DecidableEq, Repr

/-- An IPv4 address, `struct in_addr`. -/
structure in_addr where
  s_addr : Nat
  deriving DecidableEq, Repr

/-- The part of `struct in_ifaddr` read by `interface_contains`: one IPv4
address record of an interface (`ifa_next` is the tail of the list). -/
structure in_ifaddr where
  ifa_local : Nat
  ifa_mask : Nat
  ifa_prefixlen : Nat
  deriving DecidableEq, Repr

/-- The part of `struct in_device` read by `interface_contains`. -/
structure in_device where
  ifa_list : List in_ifaddr
  deriving DecidableEq, Repr

/-- The part of `struct net_device` read by the send path (`mtu`) and by
`interface_contains` (`ip_ptr`, the IPv4 side of the device). -/
structure net_device where
  mtu : Nat
  ip_ptr : in_device
  deriving DecidableEq, Repr

/-- Network namespace (`struct net`): the devices `for_each_netdev_rcu`
visits, in order. -/
structure net where
  devices : List net_device
  deriving DecidableEq, Repr

/-- The part of `struct dst_entry` read by the send path. -/
structure dst_entry where
  dev : net_device
  deriving DecidableEq, Repr

/-- The part of `struct iphdr` read by the send path: the Don't-Fragment bit of
`frag_off`. -/
structure iphdr where
  df : Bool
  deriving DecidableEq, Repr

/-- The part of `struct sk_buff` the send path reads or writes.  `dst` is the
routing decision attached by `route` (`none` is the C null pointer), `iph` is
what `ip_hdr(skb)` points at, `gso_size` is `skb_shinfo(skb)->gso_size`. -/
structure sk_buff where
  len : Nat
  gso_size : Nat
  iph : iphdr
  dst : Option dst_entry
  dev : Option net_device
  ignore_df : Bool
  deriving DecidableEq, Repr

/-- Modelled from the spec: the packet view of section 4.A, a buffer together
with its layer-3 protocol tag. -/
structure packet where
  skb : sk_buff
  l3_proto : l3_protocol
  deriving DecidableEq, Repr

/-- Modelled from the spec: the ICMP error a dropped packet asks for
(`state->result`), written by `drop_icmp`. -/
structure xlation_result where
  icmp : icmp_error_code
  info : Nat
  deriving DecidableEq, Repr

/-- The translator instance seen by the send path (`state->jool`): its
namespace and the statistics events recorded so far. -/
structure xlator where
  ns : net
  stats : List jool_stat
  deriving DecidableEq, Repr

/-- The translation state `struct xlation`: the translator, the incoming packet
(`in` in the source, a reserved word here), the outgoing packet and the
pending ICMP error. -/
structure xlation where
  jool : xlator
  in_ : packet
  out : packet
  result : xlation_result
  deriving DecidableEq, Repr

/-- Functions the send path calls that live outside `send_packet.c`: the router
(`route`), the kernel send routine (`dst_output`) and the three
verdict-producing helpers.  Each helper receives the state and returns the
verdict together with the state it leaves behind. -/
structure host where
  route : net → packet → Option dst_entry
  dst_output : net → sk_buff → Int
  untranslatable : xlation → jool_stat → verdict × xlation
  drop : xlation → jool_stat → verdict × xlation
  drop_icmp : xlation → jool_stat → icmp_error_code → Nat → verdict × xlation

/-- Modelled from the spec: `untranslatable` bumps the per-kind counter and
yields the UNTRANSLATABLE verdict (sections 4.G and 7). -/
def untranslatable (state : xlation) (stat : jool_stat) : verdict × xlation :=
  (verdict.VERDICT_UNTRANSLATABLE,
    { state with jool := { state.jool with stats := stat :: state.jool.stats } })

/-- Modelled from the spec: `drop` bumps the per-kind counter and yields the
DROP verdict (sections 4.G and 7). -/
def drop (state : xlation) (stat : jool_stat) : verdict × xlation :=
  (verdict.VERDICT_DROP,
    { state with jool := { state.jool with stats := stat :: state.jool.stats } })

/-- Modelled from the spec: `drop_icmp` bumps the per-kind counter, records the
ICMP error and its extra value for the host to emit, and yields the DROP
verdict (section 4.G step 6, section 7 `MTU_EXCEEDED`). -/
def drop_icmp (state : xlation) (stat : jool_stat) (icmp : icmp_error_code)
    (info : Nat) : verdict × xlation :=
  (verdict.VERDICT_DROP,
    { state with
      jool := { state.jool with stats := stat :: state.jool.stats }
      result := { icmp := icmp, info := u32 info } })

/-- Modelled from the spec: `pkt_l3_proto`, the protocol tag of the view. -/
def pkt_l3_proto (pkt : packet) : l3_protocol := pkt.l3_proto

/-- Modelled from the spec: `pkt_len`, the full length of the buffer, an
`unsigned int`. -/
def pkt_len (pkt : packet) : Nat := u32 pkt.skb.len

/-- Modelled from the spec: `pkt_ip4_hdr`, the IPv4 header of the buffer. -/
def pkt_ip4_hdr (pkt : packet) : iphdr := pkt.skb.iph

/-- Modelled from the spec: `is_df_set`, the Don't-Fragment flag of an IPv4
header (section 4.A). -/
def is_df_set (hdr : iphdr) : Bool := hdr.df

/-- Kernel `skb_is_gso`: the buffer is meant to be segmented later iff its
`gso_size` is not zero. -/
def skb_is_gso (skb : sk_buff) : Bool := skb.gso_size != 0

/-- Kernel `skb_dst`: the routing decision attached to the buffer. -/
def skb_dst (skb : sk_buff) : Option dst_entry := skb.dst

/-! ## `send_packet.c` -/

/-- `get_nexthop_mtu` (the build without `UNIT_TESTING`):
`skb_dst(pkt->skb)->dev->mtu`.  `none` stands for the dereference of a buffer
that has no route attached. -/
def get_nexthop_mtu (pkt : packet) : Option Nat :=
  match skb_dst pkt.skb with
  | none => none
  | some dst => some (u32 dst.dev.mtu)

/-- `handle_gso`: true iff GSO takes care of the MTU. -/
def handle_gso (pkt_in : packet) : Bool := skb_is_gso pkt_in.skb

/-- `whine_if_too_big`.  The result is the verdict and the state left behind;
`none` only when the MTU is read from a buffer without a route. -/
def whine_if_too_big (h : host) (state : xlation) : Option (verdict × xlation) :=
  if handle_gso state.in_ then
    some (verdict.VERDICT_CONTINUE, state)
  else if pkt_l3_proto state.in_ = l3_protocol.L3PROTO_IPV4
      ∧ ¬ is_df_set (pkt_ip4_hdr state.in_) then
    some (verdict.VERDICT_CONTINUE, state)
  else
    let len := pkt_len state.out
    match get_nexthop_mtu state.out with
    | none => none
    | some mtu =>
      if len > mtu then
        let mtu :=
          match pkt_l3_proto state.out with
          | l3_protocol.L3PROTO_IPV6 => max 576 (u32_sub mtu 20)
          | l3_protocol.L3PROTO_IPV4 => max 1280 (u32_add mtu 20)
        some (h.drop_icmp state jool_stat.JSTAT_PKT_TOO_BIG
          icmp_error_code.ICMPERR_FRAG_NEEDED mtu)
      else
        some (verdict.VERDICT_CONTINUE, state)

/-- Calls into the kernel made by `sendpkt_send` itself, in program order. -/
inductive host_call
  | kfree_skb (skb : sk_buff)
  | dst_output (ns : net) (skb : sk_buff)
  deriving DecidableEq, Repr

/-- What `sendpkt_send` leaves behind: the verdict it returns, the final
translation state and the kernel calls it made. -/
structure send_outcome where
  result : verdict
  state : xlation
  calls : List host_call
  deriving DecidableEq, Repr

/-- Kernel `skb_dst_set`, performed by `route` when it succeeds. -/
def skb_dst_set (pkt : packet) (dst : dst_entry) : packet :=
  { pkt with skb := { pkt.skb with dst := some dst } }

/-- The state once `route` has attached `dst` to `out->skb` and `sendpkt_send`
has executed `out->skb->dev = skb_dst(out->skb)->dev`. -/
def routed (state : xlation) (dst : dst_entry) : xlation :=
  let out := skb_dst_set state.out dst
  { state with out := { out with skb := { out.skb with dev := some dst.dev } } }

/-- The state once `sendpkt_send` has executed `out->skb->ignore_df = true`. -/
def ignoring_df (state : xlation) : xlation :=
  { state with
    out := { state.out with skb := { state.out.skb with ignore_df := true } } }

/-- `sendpkt_send`.  `none` only if `whine_if_too_big` dereferenced a missing
route, which cannot happen after `route` succeeded. -/
def sendpkt_send (h : host) (state : xlation) : Option send_outcome :=
  match h.route state.jool.ns state.out with
  | none =>
    let r := h.untranslatable state jool_stat.JSTAT_FAILED_ROUTES
    some { result := r.1, state := r.2,
           calls := [host_call.kfree_skb state.out.skb] }
  | some dst =>
    let state := routed state dst
    match whine_if_too_big h state with
    | none => none
    | some (result, state) =>
      if result ≠ verdict.VERDICT_CONTINUE then
        some { result := result, state := state,
               calls := [host_call.kfree_skb state.out.skb] }
      else
        let state := ignoring_df state
        let error := h.dst_output state.jool.ns state.out.skb
        if error ≠ 0 then
          let r := h.drop state jool_stat.JSTAT_DST_OUTPUT
          some { result := r.1, state := r.2,
                 calls := [host_call.dst_output state.jool.ns state.out.skb] }
        else
          some { result := verdict.VERDICT_CONTINUE, state := state,
                 calls := [host_call.dst_output state.jool.ns state.out.skb] }

/-! ## `blacklist4.c` -/

/-- Bitwise complement of an `unsigned int` (`~x` on 32 bits). -/
def u32_not (a : Nat) : Nat := 2 ^ 32 - 1 - a % 2 ^ 32

/-- Modelled from the spec: `ipv4_addr_cmp` (declared in a header that is not
part of the sources at hand), the three-way comparison of two IPv4 addresses;
it is 0 exactly when the addresses are equal. -/
def ipv4_addr_cmp (a b : in_addr) : Int := (a.s_addr : Int) - (b.s_addr : Int)

/-- The `while (ifa)` loop of `interface_contains` over the address records of
one device.  `some true` is `goto dont_translate`, `some false` is
`goto do_translate`, `none` means the list was exhausted and the device loop
goes on. -/
def scan_ifa_list (addr : in_addr) : List in_ifaddr → Option Bool
  | [] => none
  | ifa :: ifa_next =>
    if ipv4_addr_cmp { s_addr := ifa.ifa_local } addr = 0 then
      if ifa.ifa_prefixlen = 32 then some false else some true
    else if ifa.ifa_prefixlen < 31
        ∧ ipv4_addr_cmp { s_addr := ifa.ifa_local ||| u32_not ifa.ifa_mask } addr = 0 then
      some true
    else
      scan_ifa_list addr ifa_next

/-- The `for_each_netdev_rcu` loop of `interface_contains`; falling off the end
of the device list reaches `do_translate`. -/
def scan_devices (addr : in_addr) : List net_device → Bool
  | [] => false
  | dev :: rest =>
    match scan_ifa_list addr dev.ip_ptr.ifa_list with
    | some answer => answer
    | none => scan_devices addr rest

/-- `interface_contains`: is `addr` NOT translatable, according to the
interfaces?  Every device is taken to have an IPv4 side (`dev->ip_ptr`). -/
def interface_contains (ns : net) (addr : in_addr) : Bool :=
  scan_devices addr ns.devices

/-- All address records of a namespace in the order `interface_contains` visits
them. -/
def all_ifaddrs (ns : net) : List in_ifaddr :=
  ns.devices.flatMap fun dev => dev.ip_ptr.ifa_list

/-- The directed broadcast address `ifa_local | ~ifa_mask` of a record. -/
def directed_broadcast (ifa : in_ifaddr) : Nat :=
  ifa.ifa_local ||| u32_not ifa.ifa_mask

/-! ## `nl/session.c` -/

/-- Modelled from the spec: the layer-4 protocol tag (section 3). -/
inductive l4_protocol
  | L4PROTO_TCP
  | L4PROTO_UDP
  | L4PROTO_ICMP
  deriving DecidableEq, Repr

/-- Modelled from the spec: an IPv6 transport address (section 3, `TAddr6`). -/
structure ipv6_transport_addr where
  l3 : Nat
  l4 : Nat
  deriving DecidableEq, Repr

/-- Modelled from the spec: an IPv4 transport address (section 3, `TAddr4`). -/
structure ipv4_transport_addr where
  l3 : Nat
  l4 : Nat
  deriving DecidableEq, Repr

/-- Modelled from the spec: the session entry of section 3; `update_time` and
`timeout` are `unsigned long` jiffies. -/
structure session_entry where
  src6 : ipv6_transport_addr
  dst6 : ipv6_transport_addr
  src4 : ipv4_transport_addr
  dst4 : ipv4_transport_addr
  proto : l4_protocol
  state : Nat
  update_time : Nat
  timeout : Nat
  deriving DecidableEq, Repr

/-- Modelled from the spec: the per-entry record of a session dump
(section 6). -/
structure session_entry_usr where
  src6 : ipv6_transport_addr
  dst6 : ipv6_transport_addr
  src4 : ipv4_transport_addr
  dst4 : ipv4_transport_addr
  state : Nat
  dying_time : Nat
  deriving DecidableEq, Repr

/-- Modelled from the spec: the key a session dump resumes from, the IPv4 side
of a session. -/
structure taddr4_tuple where
  src : ipv4_transport_addr
  dst : ipv4_transport_addr
  deriving DecidableEq, Repr

/-- Modelled from the spec: the offset argument of `bib_foreach_session`
(section 6, `offset` and `include_offset`). -/
structure session_foreach_offset where
  offset : taddr4_tuple
  include_offset : Bool
  deriving DecidableEq, Repr

/-- Modelled from the spec: the `foreach` part of a session request. -/
structure request_session_foreach where
  offset_set : Bool
  offset : taddr4_tuple
  deriving DecidableEq, Repr

/-- Modelled from the spec: a session request, `struct request_session`. -/
structure request_session where
  l4_proto : l4_protocol
  foreach : request_session_foreach
  deriving DecidableEq, Repr

/-- Handle of the netlink request being answered (`struct genl_info *`). -/
abbrev genl_info := Nat

/-- What the kernel provides to `session.c`: the width of `unsigned long`, the
volatile tick counter `jiffies` and `jiffies_to_msecs`.  `jiffies i` is the
value returned by the read number `i` (from 0) that one call of
`session_entry_to_userspace` makes of the counter; the clock may tick between
two reads. -/
structure kernel where
  BITS_PER_LONG : Nat
  jiffies : Nat → Nat
  jiffies_to_msecs : Nat → Nat

/-- Functions `session.c` calls that live in other modules: the netlink
response buffer (of some type `β`) and the session table walk.  A function that
writes through a pointer returns the new value next to its `int` result. -/
structure nl_core (β : Type) where
  nlbuffer_response_max_size : Nat
  nlbuffer_init_response : genl_info → Nat → Int × β
  nlbuffer_write : β → session_entry_usr → Int × β
  nlbuffer_set_pending_data : β → Bool → β
  nlbuffer_send : genl_info → β → Int
  nlcore_respond : genl_info → Int → Int
  bib_foreach_session : xlator → l4_protocol →
    (session_entry → β → Int × β) → β → Option session_foreach_offset → Int × β

/-- Subtraction of two `unsigned long` values of width `w` (wraps). -/
def ulong_sub (w a b : Nat) : Nat := (a + (2 ^ w - b % 2 ^ w)) % 2 ^ w

/-- `session_entry_to_userspace`: builds the userspace record of `entry` and
hands it to `nlbuffer_write`.  The source names `jiffies` twice, first in the
comparison and then in the subtraction: these are reads 0 and 1. -/
def session_entry_to_userspace {β : Type} (k : kernel) (nl : nl_core β)
    (entry : session_entry) (buffer : β) : Int × β :=
  let dying_time := (entry.update_time + entry.timeout) % 2 ^ k.BITS_PER_LONG
  let entry_usr : session_entry_usr :=
    { src6 := entry.src6
      dst6 := entry.dst6
      src4 := entry.src4
      dst4 := entry.dst4
      state := entry.state
      dying_time :=
        if dying_time > k.jiffies 0 then
          k.jiffies_to_msecs (ulong_sub k.BITS_PER_LONG dying_time (k.jiffies 1))
        else 0 }
  nl.nlbuffer_write buffer entry_usr

/-- What `handle_session_display` leaves behind: its return value, the buffer
it handed to `nlbuffer_send` (`none` when the answer was a bare error code) and
the arguments of its calls to `bib_foreach_session` (protocol and offset). -/
structure display_outcome (β : Type) where
  error : Int
  sent : Option β
  foreach_calls : List (l4_protocol × Option session_foreach_offset)
  deriving DecidableEq, Repr

/-- `handle_session_display`.  The final `nlbuffer_clean(&buffer)` only releases
the buffer and is left out. -/
def handle_session_display {β : Type} (k : kernel) (nl : nl_core β)
    (jool : xlator) (info : genl_info) (request : request_session) :
    display_outcome β :=
  let init := nl.nlbuffer_init_response info nl.nlbuffer_response_max_size
  if init.1 ≠ 0 then
    { error := nl.nlcore_respond info init.1, sent := none, foreach_calls := [] }
  else
    let offset : Option session_foreach_offset :=
      if request.foreach.offset_set then
        some { offset := request.foreach.offset, include_offset := false }
      else none
    let walk := nl.bib_foreach_session jool request.l4_proto
      (session_entry_to_userspace k nl) init.2 offset
    let buffer := nl.nlbuffer_set_pending_data walk.2 (decide (walk.1 > 0))
    if walk.1 ≥ 0 then
      { error := nl.nlbuffer_send info buffer, sent := some buffer,
        foreach_calls := [(request.l4_proto, offset)] }
    else
      { error := nl.nlcore_respond info walk.1, sent := none,
        foreach_calls := [(request.l4_proto, offset)] }

/-! ## Concrete hosts and states used to exercise the definitions -/

/-- A host whose verdict helpers are the spec-modelled ones, whose router
always finds a device of MTU `mtu` and whose send routine returns `err`. -/
def model_host (mtu : Nat) (err : Int) : host where
  route := fun _ _ => some { dev := { mtu := mtu, ip_ptr := { ifa_list := [] } } }
  dst_output := fun _ _ => err
  untranslatable := untranslatable
  drop := drop
  drop_icmp := drop_icmp

/-- A host like `model_host` whose router finds no route. -/
def unroutable_host : host where
  route := fun _ _ => none
  dst_output := fun _ _ => 0
  untranslatable := untranslatable
  drop := drop
  drop_icmp := drop_icmp

/-- A buffer of `len` bytes headed for a device of MTU `mtu`. -/
def mk_skb (len gso_size : Nat) (df : Bool) (mtu : Nat) : sk_buff :=
  { len := len, gso_size := gso_size, iph := { df := df },
    dst := some { dev := { mtu := mtu, ip_ptr := { ifa_list := [] } } },
    dev := none, ignore_df := false }

/-- A translation state: input of family `fin` with DF flag `df_in` and GSO
size `gso`, output of family `fout`, `len` bytes, DF flag `df_out`, next-hop
MTU `mtu`. -/
def mk_state (fin : l3_protocol) (df_in : Bool) (gso : Nat)
    (fout : l3_protocol) (len : Nat) (df_out : Bool) (mtu : Nat) : xlation :=
  { jool := { ns := { devices := [] }, stats := [] },
    in_ := { skb := mk_skb len gso df_in 1500, l3_proto := fin },
    out := { skb := mk_skb len 0 df_out mtu, l3_proto := fout },
    result := { icmp := icmp_error_code.ICMPERR_NONE, info := 0 } }

/-- Modelled from the spec: a walk over the sessions of a table, calling `cb`
on each and stopping at the first non-zero result, which is returned
(section 4.F, `foreach_session`). -/
def foreach_from {β : Type} (cb : session_entry → β → Int × β) :
    List session_entry → β → Int × β
  | [], b => (0, b)
  | e :: es, b =>
    let r := cb e b
    if r.1 ≠ 0 then r else foreach_from cb es r.2

/-- Modelled from the spec: the sessions of `table` a paged dump still has to
visit, those strictly after the entry whose IPv4 side is the offset (that entry
included only on request). -/
def sessions_after (table : List session_entry)
    (offset : Option session_foreach_offset) : List session_entry :=
  match offset with
  | none => table
  | some o =>
    let tail := table.dropWhile fun e =>
      decide (¬ (e.src4 = o.offset.src ∧ e.dst4 = o.offset.dst))
    if o.include_offset then tail else tail.drop 1

/-- A netlink layer whose buffer is a list of at most `capacity` records with
a pending-data flag, whose initialisation returns `init_error`, walking the
session table `table`. -/
def model_nl (table : List session_entry) (capacity : Nat) (init_error : Int) :
    nl_core (List session_entry_usr × Bool) where
  nlbuffer_response_max_size := capacity
  nlbuffer_init_response := fun _ _ => (init_error, ([], false))
  nlbuffer_write := fun buffer record =>
    if buffer.1.length < capacity then (0, (buffer.1 ++ [record], buffer.2))
    else (1, buffer)
  nlbuffer_set_pending_data := fun buffer pending => (buffer.1, pending)
  nlbuffer_send := fun _ _ => 0
  nlcore_respond := fun _ error => error
  bib_foreach_session := fun _ proto cb buffer offset =>
    foreach_from cb
      (sessions_after (table.filter fun e => decide (e.proto = proto)) offset) buffer

/-- A 64-bit kernel ticking at 250 Hz whose clock reads `now` at every read;
`jiffies_to_msecs` is the kernel's `(MSEC_PER_SEC / HZ) * j` returned as an
`unsigned int`. -/
def model_kernel (now : Nat) : kernel where
  BITS_PER_LONG := 64
  jiffies := fun _ => now
  jiffies_to_msecs := fun j => (4 * j) % 2 ^ 32

/-- A kernel like `model_kernel` whose clock reads `first` at read 0 and
`later` afterwards. -/
def ticking_kernel (first later : Nat) : kernel where
  BITS_PER_LONG := 64
  jiffies := fun i => if i = 0 then first else later
  jiffies_to_msecs := fun j => (4 * j) % 2 ^ 32

/-- A TCP session between fixed endpoints, last refreshed at `update_time`. -/
def mk_session (port update_time timeout : Nat) : session_entry :=
  { src6 := { l3 := 0x20010db8000000000000000000000001, l4 := port }
    dst6 := { l3 := 0x0064ff9b0000000000000000c6336402, l4 := 80 }
    src4 := { l3 := 0xcb00710a, l4 := port }
    dst4 := { l3 := 0xc6336402, l4 := 80 }
    proto := l4_protocol.L4PROTO_TCP
    state := 3
    update_time := update_time
    timeout := timeout }

/-- A namespace made of the given address lists, one device each. -/
def mk_net (lists : List (List in_ifaddr)) : net :=
  { devices := lists.map fun l => { mtu := 1500, ip_ptr := { ifa_list := l } } }

/-! ## Basic facts -/

open verdict l3_protocol jool_stat icmp_error_code

theorem u32_lt (n : Nat) : u32 n < 2 ^ 32 := by
  unfold u32; omega

theorem get_nexthop_mtu_lt {pkt : packet} {m : Nat}
    (hm : get_nexthop_mtu pkt = some m) : m < 2 ^ 32 := by
  unfold get_nexthop_mtu at hm
  cases hd : skb_dst pkt.skb with
  | none => simp [hd] at hm
  | some d =>
    simp [hd] at hm
    rw [← hm]; exact u32_lt _

/-- The shape of `whine_if_too_big` once the two early exits are passed. -/
theorem whine_past_guards (h : host) (state : xlation) (m : Nat)
    (hgso : skb_is_gso state.in_.skb = false)
    (hdf : ¬ (pkt_l3_proto state.in_ = L3PROTO_IPV4
      ∧ is_df_set (pkt_ip4_hdr state.in_) = false))
    (hm : get_nexthop_mtu state.out = some m) :
    whine_if_too_big h state =
      if pkt_len state.out > m then
        some (h.drop_icmp state JSTAT_PKT_TOO_BIG ICMPERR_FRAG_NEEDED
          (match pkt_l3_proto state.out with
           | L3PROTO_IPV6 => max 576 (u32_sub m 20)
           | L3PROTO_IPV4 => max 1280 (u32_add m 20)))
      else some (VERDICT_CONTINUE, state) := by
  have hdf2 : ¬ (pkt_l3_proto state.in_ = L3PROTO_IPV4
      ∧ ¬ is_df_set (pkt_ip4_hdr state.in_) = true) := by
    simpa using hdf
  unfold whine_if_too_big handle_gso
  rw [hgso]
  simp only [Bool.false_eq_true, if_false, if_neg hdf2, hm]

/-- A GSO input makes `whine_if_too_big` continue at once. -/
theorem whine_gso_cont_aux (h : host) (state : xlation)
    (hgso : skb_is_gso state.in_.skb = true) :
    whine_if_too_big h state = some (VERDICT_CONTINUE, state) := by
  unfold whine_if_too_big handle_gso
  rw [hgso]
  simp

/-- After `route` succeeded the next-hop MTU can be read. -/
theorem get_nexthop_mtu_routed (state : xlation) (dst : dst_entry) :
    get_nexthop_mtu (routed state dst).out = some (u32 dst.dev.mtu) := rfl

/-- With a route attached `whine_if_too_big` returns. -/
theorem whine_some_of_mtu (h : host) (state : xlation) (m : Nat)
    (hm : get_nexthop_mtu state.out = some m) :
    ∃ r, whine_if_too_big h state = some r := by
  unfold whine_if_too_big
  rw [hm]
  split
  · exact ⟨_, rfl⟩
  · split
    · exact ⟨_, rfl⟩
    · simp only
      split
      · exact ⟨_, rfl⟩
      · exact ⟨_, rfl⟩

/-- The comparison helper is zero exactly on equal addresses. -/
theorem ipv4_addr_cmp_eq_zero (x : Nat) (addr : in_addr) :
    ipv4_addr_cmp { s_addr := x } addr = 0 ↔ x = addr.s_addr := by
  unfold ipv4_addr_cmp
  simp only
  omega

/-- Scanning a concatenation: the first list decides if it decides at all. -/
theorem scan_ifa_list_append (addr : in_addr) (l1 l2 : List in_ifaddr) :
    scan_ifa_list addr (l1 ++ l2) =
      match scan_ifa_list addr l1 with
      | some b => some b
      | none => scan_ifa_list addr l2 := by
  induction l1 with
  | nil => simp [scan_ifa_list]
  | cons ifa rest ih =>
    simp only [List.cons_append, scan_ifa_list]
    split
    · split <;> rfl
    · split
      · rfl
      · exact ih

/-- The two nested loops amount to one scan over all records in order. -/
theorem interface_contains_eq_scan (ns : net) (addr : in_addr) :
    interface_contains ns addr =
      (scan_ifa_list addr (all_ifaddrs ns)).getD false := by
  unfold interface_contains all_ifaddrs
  induction ns.devices with
  | nil => simp [scan_devices, scan_ifa_list]
  | cons dev rest ih =>
    simp only [scan_devices, List.flatMap_cons, scan_ifa_list_append]
    cases hs : scan_ifa_list addr dev.ip_ptr.ifa_list with
    | none => simpa using ih
    | some b => simp

/-- The first record that matches, as a local address that is not a /32 or as a
directed broadcast, makes the scan answer true, provided no earlier record
holds the address as a /32. -/
theorem scan_hit (addr : in_addr) (pre : List in_ifaddr) (r : in_ifaddr)
    (post : List in_ifaddr)
    (hr : (r.ifa_local = addr.s_addr ∧ r.ifa_prefixlen ≠ 32)
      ∨ (r.ifa_prefixlen < 31 ∧ directed_broadcast r = addr.s_addr))
    (hpre : ∀ p ∈ pre, ¬ (p.ifa_local = addr.s_addr ∧ p.ifa_prefixlen = 32)) :
    scan_ifa_list addr (pre ++ r :: post) = some true := by
  induction pre with
  | nil =>
    simp only [List.nil_append, scan_ifa_list, ipv4_addr_cmp_eq_zero]
    rcases hr with ⟨hloc, hlen⟩ | ⟨hlen, hb⟩
    · simp [hloc, hlen]
    · have h32 : r.ifa_prefixlen ≠ 32 := by omega
      unfold directed_broadcast at hb
      by_cases hloc : r.ifa_local = addr.s_addr
      · simp [hloc, h32]
      · simp [hloc, hlen, hb]
  | cons p pre ih =>
    simp only [List.cons_append, scan_ifa_list, ipv4_addr_cmp_eq_zero]
    have hp := hpre p (List.mem_cons_self _ _)
    have ih2 := ih (fun q hq => hpre q (List.mem_cons_of_mem _ hq))
    by_cases hloc : p.ifa_local = addr.s_addr
    · have h32 : p.ifa_prefixlen ≠ 32 := fun h => hp ⟨hloc, h⟩
      simp [hloc, h32]
    · simp only [hloc, if_false]
      split
      · rfl
      · exact ih2

/-- Without a matching local address outside a /32 and without a matching
directed broadcast the scan never answers true. -/
theorem scan_never_true (addr : in_addr) (l : List in_ifaddr)
    (h32 : ∀ r ∈ l, r.ifa_local = addr.s_addr → r.ifa_prefixlen = 32)
    (hb : ∀ r ∈ l, r.ifa_prefixlen < 31 → directed_broadcast r ≠ addr.s_addr) :
    scan_ifa_list addr l ≠ some true := by
  induction l with
  | nil => simp [scan_ifa_list]
  | cons r rest ih =>
    simp only [scan_ifa_list, ipv4_addr_cmp_eq_zero]
    have ih2 := ih (fun q hq => h32 q (List.mem_cons_of_mem _ hq))
      (fun q hq => hb q (List.mem_cons_of_mem _ hq))
    by_cases hloc : r.ifa_local = addr.s_addr
    · have := h32 r (List.mem_cons_self _ _) hloc
      simp [hloc, this]
    · simp only [hloc, if_false]
      have hbr := hb r (List.mem_cons_self _ _)
      unfold directed_broadcast at hbr
      by_cases hlen : r.ifa_prefixlen < 31
      · have := hbr hlen
        simp [hlen, this]
        exact ih2
      · simp [hlen]
        exact ih2

/-- A difference of `unsigned long` values that does not underflow is exact. -/
theorem ulong_sub_exact (w a b : Nat) (ha : a < 2 ^ w) (hb : b ≤ a) :
    ulong_sub w a b = a - b := by
  unfold ulong_sub
  have hbw : b < 2 ^ w := by omega
  rw [Nat.mod_eq_of_lt hbw]
  have : a + (2 ^ w - b) = (a - b) + 2 ^ w := by omega
  rw [this, Nat.add_mod_right]
  exact Nat.mod_eq_of_lt (by omega)

/-! ## Properties of `whine_if_too_big` -/

/-- C1: for a non-GSO packet translated v6 to v4 whose output length exceeds the
next-hop MTU `m`, `whine_if_too_big` returns what
`drop_icmp(state, JSTAT_PKT_TOO_BIG, ICMPERR_FRAG_NEEDED, max(1280, m + 20))`
returns, the sum wrapping at 32 bits; hence its verdict is not
`VERDICT_CONTINUE` as long as `drop_icmp` never continues; with length 1500 and
`m = 1400` the reported MTU is 1420. -/
theorem whine_v6_to_v4_too_big (h : host) (state : xlation) (m : Nat)
    (hgso : skb_is_gso state.in_.skb = false)
    (hin : pkt_l3_proto state.in_ = L3PROTO_IPV6)
    (hout : pkt_l3_proto state.out = L3PROTO_IPV4)
    (hm : get_nexthop_mtu state.out = some m)
    (hlen : pkt_len state.out > m) :
    whine_if_too_big h state =
        some (h.drop_icmp state JSTAT_PKT_TOO_BIG ICMPERR_FRAG_NEEDED
          (max 1280 ((m + 20) % 2 ^ 32)))
      ∧ ((∀ s st ic i, (h.drop_icmp s st ic i).1 ≠ VERDICT_CONTINUE) →
          ∀ r, whine_if_too_big h state = some r → r.1 ≠ VERDICT_CONTINUE)
      ∧ (pkt_len state.out = 1500 → m = 1400 →
          whine_if_too_big h state =
            some (h.drop_icmp state JSTAT_PKT_TOO_BIG ICMPERR_FRAG_NEEDED 1420)) := by
  have hdf : ¬ (pkt_l3_proto state.in_ = L3PROTO_IPV4
      ∧ is_df_set (pkt_ip4_hdr state.in_) = false) := by
    rw [hin]; simp
  have key : whine_if_too_big h state =
      some (h.drop_icmp state JSTAT_PKT_TOO_BIG ICMPERR_FRAG_NEEDED
        (max 1280 ((m + 20) % 2 ^ 32))) := by
    rw [whine_past_guards h state m hgso hdf hm, if_pos hlen, hout]
    rfl
  refine ⟨key, ?_, ?_⟩
  · intro hc r hr
    rw [key] at hr
    cases hr
    exact hc _ _ _ _
  · intro _ h1400
    rw [key, h1400]
    rfl

/-- Witness of C1: a 1500-byte IPv4 output of an IPv6 input towards a device of
MTU 1400 is answered through `drop_icmp` with MTU 1420. -/
theorem whine_v6_to_v4_too_big_witness :
    whine_if_too_big (model_host 1400 0)
        (mk_state L3PROTO_IPV6 false 0 L3PROTO_IPV4 1500 true 1400) =
      some (drop_icmp (mk_state L3PROTO_IPV6 false 0 L3PROTO_IPV4 1500 true 1400)
        JSTAT_PKT_TOO_BIG ICMPERR_FRAG_NEEDED 1420) :=
  (whine_v6_to_v4_too_big (model_host 1400 0)
    (mk_state L3PROTO_IPV6 false 0 L3PROTO_IPV4 1500 true 1400) 1400
    rfl rfl rfl rfl (by decide)).2.2 rfl rfl

/-- Counterexample to C2 as stated: for an IPv4 output (v6 to v4) of 1500 bytes
and next-hop MTU 1000 the value handed to `drop_icmp` is 1280, which is neither
`max(576, 1000 + 20)` nor `max(576, 1000 - 20)`; for an IPv6 output (v4 to v6,
DF set) of 1500 bytes and next-hop MTU 700 it is 680, which is neither
`max(1280, 700 - 20)` nor `max(1280, 700 + 20)`. -/
theorem whine_floor_counterexample :
    (whine_if_too_big (model_host 1000 0)
        (mk_state L3PROTO_IPV6 false 0 L3PROTO_IPV4 1500 true 1000) =
      some (drop_icmp (mk_state L3PROTO_IPV6 false 0 L3PROTO_IPV4 1500 true 1000)
        JSTAT_PKT_TOO_BIG ICMPERR_FRAG_NEEDED 1280)
      ∧ drop_icmp (mk_state L3PROTO_IPV6 false 0 L3PROTO_IPV4 1500 true 1000)
          JSTAT_PKT_TOO_BIG ICMPERR_FRAG_NEEDED 1280 ≠
        drop_icmp (mk_state L3PROTO_IPV6 false 0 L3PROTO_IPV4 1500 true 1000)
          JSTAT_PKT_TOO_BIG ICMPERR_FRAG_NEEDED (max 576 (u32_add 1000 20))
      ∧ drop_icmp (mk_state L3PROTO_IPV6 false 0 L3PROTO_IPV4 1500 true 1000)
          JSTAT_PKT_TOO_BIG ICMPERR_FRAG_NEEDED 1280 ≠
        drop_icmp (mk_state L3PROTO_IPV6 false 0 L3PROTO_IPV4 1500 true 1000)
          JSTAT_PKT_TOO_BIG ICMPERR_FRAG_NEEDED (max 576 (u32_sub 1000 20)))
    ∧ (whine_if_too_big (model_host 700 0)
        (mk_state L3PROTO_IPV4 true 0 L3PROTO_IPV6 1500 false 700) =
      some (drop_icmp (mk_state L3PROTO_IPV4 true 0 L3PROTO_IPV6 1500 false 700)
        JSTAT_PKT_TOO_BIG ICMPERR_FRAG_NEEDED 680)
      ∧ drop_icmp (mk_state L3PROTO_IPV4 true 0 L3PROTO_IPV6 1500 false 700)
          JSTAT_PKT_TOO_BIG ICMPERR_FRAG_NEEDED 680 ≠
        drop_icmp (mk_state L3PROTO_IPV4 true 0 L3PROTO_IPV6 1500 false 700)
          JSTAT_PKT_TOO_BIG ICMPERR_FRAG_NEEDED (max 1280 (u32_sub 700 20))
      ∧ drop_icmp (mk_state L3PROTO_IPV4 true 0 L3PROTO_IPV6 1500 false 700)
          JSTAT_PKT_TOO_BIG ICMPERR_FRAG_NEEDED 680 ≠
        drop_icmp (mk_state L3PROTO_IPV4 true 0 L3PROTO_IPV6 1500 false 700)
          JSTAT_PKT_TOO_BIG ICMPERR_FRAG_NEEDED (max 1280 (u32_add 700 20))) := by
  decide

/-- C2, amended: whenever `whine_if_too_big` emits the ICMP error (input not
GSO, input not an IPv4 packet with DF clear, output longer than the next-hop MTU
`m`), the value passed to `drop_icmp` is `max(1280, m + 20)` when the output
packet is IPv4 (v6 to v4) and `max(576, m - 20)` when the output packet is IPv6
(v4 to v6), both in 32-bit unsigned arithmetic; for `m ≥ 20` the difference
does not wrap. -/
theorem whine_floor_by_output_family (h : host) (state : xlation) (m : Nat)
    (hgso : skb_is_gso state.in_.skb = false)
    (hdf : ¬ (pkt_l3_proto state.in_ = L3PROTO_IPV4
      ∧ is_df_set (pkt_ip4_hdr state.in_) = false))
    (hm : get_nexthop_mtu state.out = some m)
    (hlen : pkt_len state.out > m) :
    (pkt_l3_proto state.out = L3PROTO_IPV4 →
        whine_if_too_big h state =
          some (h.drop_icmp state JSTAT_PKT_TOO_BIG ICMPERR_FRAG_NEEDED
            (max 1280 ((m + 20) % 2 ^ 32))))
      ∧ (pkt_l3_proto state.out = L3PROTO_IPV6 →
        whine_if_too_big h state =
          some (h.drop_icmp state JSTAT_PKT_TOO_BIG ICMPERR_FRAG_NEEDED
            (max 576 ((m + (2 ^ 32 - 20)) % 2 ^ 32))))
      ∧ (20 ≤ m → (m + (2 ^ 32 - 20)) % 2 ^ 32 = m - 20) := by
  have hlt := get_nexthop_mtu_lt hm
  refine ⟨?_, ?_, ?_⟩
  · intro hout
    rw [whine_past_guards h state m hgso hdf hm, if_pos hlen, hout]
    rfl
  · intro hout
    rw [whine_past_guards h state m hgso hdf hm, if_pos hlen, hout]
    rfl
  · intro h20
    omega

/-- Witness of C2 (amended): an IPv6 output of 1500 bytes of an IPv4 input with
DF set, towards a device of MTU 700, reports `max(576, 700 - 20) = 680`. -/
theorem whine_floor_by_output_family_witness :
    whine_if_too_big (model_host 700 0)
        (mk_state L3PROTO_IPV4 true 0 L3PROTO_IPV6 1500 false 700) =
      some (drop_icmp (mk_state L3PROTO_IPV4 true 0 L3PROTO_IPV6 1500 false 700)
        JSTAT_PKT_TOO_BIG ICMPERR_FRAG_NEEDED
        (max 576 ((700 + (2 ^ 32 - 20)) % 2 ^ 32))) :=
  (whine_floor_by_output_family (model_host 700 0)
    (mk_state L3PROTO_IPV4 true 0 L3PROTO_IPV6 1500 false 700) 700
    rfl (by decide) rfl (by decide)).2.1 rfl

/-- Counterexample to C3 as stated: a non-GSO IPv6 input whose IPv4 output is
1500 bytes long with DF clear, towards a next-hop MTU of 1400, does not
continue: whatever the host helpers are, `whine_if_too_big` answers through
`drop_icmp` with `ICMPERR_FRAG_NEEDED` and MTU 1420; with the spec-modelled
`drop_icmp` the verdict is `VERDICT_DROP` and the ICMP error is recorded. -/
theorem whine_v6_to_v4_df_clear_counterexample :
    (skb_is_gso (mk_state L3PROTO_IPV6 false 0 L3PROTO_IPV4 1500 false 1400).in_.skb
        = false
      ∧ is_df_set (pkt_ip4_hdr
          (mk_state L3PROTO_IPV6 false 0 L3PROTO_IPV4 1500 false 1400).out) = false
      ∧ whine_if_too_big (model_host 1400 0)
          (mk_state L3PROTO_IPV6 false 0 L3PROTO_IPV4 1500 false 1400) ≠
        some (VERDICT_CONTINUE,
          mk_state L3PROTO_IPV6 false 0 L3PROTO_IPV4 1500 false 1400)
      ∧ whine_if_too_big (model_host 1400 0)
          (mk_state L3PROTO_IPV6 false 0 L3PROTO_IPV4 1500 false 1400) =
        some (VERDICT_DROP,
          { mk_state L3PROTO_IPV6 false 0 L3PROTO_IPV4 1500 false 1400 with
            jool := { ns := { devices := [] }, stats := [JSTAT_PKT_TOO_BIG] }
            result := { icmp := ICMPERR_FRAG_NEEDED, info := 1420 } }))
      ∧ (∀ h : host, whine_if_too_big h
          (mk_state L3PROTO_IPV6 false 0 L3PROTO_IPV4 1500 false 1400) =
        some (h.drop_icmp (mk_state L3PROTO_IPV6 false 0 L3PROTO_IPV4 1500 false 1400)
          JSTAT_PKT_TOO_BIG ICMPERR_FRAG_NEEDED 1420)) :=
  ⟨by decide, fun _ => rfl⟩

/-- C3, amended: for every non-GSO packet translated v4 to v6 whose IPv4 input
has DF clear, `whine_if_too_big` returns `VERDICT_CONTINUE` and leaves the
state untouched, whatever the output length and the next-hop MTU are, so a
packet whose output length exceeds the next-hop MTU passes through and no ICMP
error is emitted; e.g. a 1500-byte output with next-hop MTU 1400 and DF unset
on the IPv4 input. -/
theorem whine_v4_input_df_clear (h : host) (state : xlation)
    (hgso : skb_is_gso state.in_.skb = false)
    (hin : pkt_l3_proto state.in_ = L3PROTO_IPV4)
    (hdf : is_df_set (pkt_ip4_hdr state.in_) = false) :
    whine_if_too_big h state = some (VERDICT_CONTINUE, state) := by
  unfold whine_if_too_big handle_gso
  rw [hgso]
  simp [hin, hdf]

/-- Witness of C3 (amended): a 1500-byte IPv6 output of a non-GSO IPv4 input
with DF clear continues although the next-hop MTU is 1400. -/
theorem whine_v4_input_df_clear_witness :
    get_nexthop_mtu (mk_state L3PROTO_IPV4 false 0 L3PROTO_IPV6 1500 false 1400).out
        = some 1400
      ∧ pkt_len (mk_state L3PROTO_IPV4 false 0 L3PROTO_IPV6 1500 false 1400).out
        = 1500
      ∧ whine_if_too_big (model_host 1400 0)
        (mk_state L3PROTO_IPV4 false 0 L3PROTO_IPV6 1500 false 1400) =
      some (VERDICT_CONTINUE,
        mk_state L3PROTO_IPV4 false 0 L3PROTO_IPV6 1500 false 1400) :=
  ⟨rfl, rfl, whine_v4_input_df_clear (model_host 1400 0)
    (mk_state L3PROTO_IPV4 false 0 L3PROTO_IPV6 1500 false 1400)
    rfl rfl rfl⟩

/-- C4: when the input packet is GSO, `whine_if_too_big` returns
`VERDICT_CONTINUE` and leaves the state untouched, whatever the output length,
the next-hop MTU (attached or not), the address families and the DF flag
are. -/
theorem whine_gso_continues (h : host) (state : xlation)
    (hgso : skb_is_gso state.in_.skb = true) :
    whine_if_too_big h state = some (VERDICT_CONTINUE, state) := by
  unfold whine_if_too_big handle_gso
  rw [hgso]
  simp

/-- Witness of C4: a GSO IPv6 input whose 65000-byte IPv4 output faces a
next-hop MTU of 1400 continues. -/
theorem whine_gso_continues_witness :
    whine_if_too_big (model_host 1400 0)
        (mk_state L3PROTO_IPV6 false 1448 L3PROTO_IPV4 65000 true 1400) =
      some (VERDICT_CONTINUE,
        mk_state L3PROTO_IPV6 false 1448 L3PROTO_IPV4 65000 true 1400) :=
  whine_gso_continues (model_host 1400 0)
    (mk_state L3PROTO_IPV6 false 1448 L3PROTO_IPV4 65000 true 1400) rfl

/-- C9: provided `drop_icmp` never yields `VERDICT_CONTINUE`, with a next-hop
MTU `m` attached `whine_if_too_big` returns, and its verdict differs from
`VERDICT_CONTINUE` iff the input is not GSO, the input is not an IPv4 packet
with DF clear, and the output length is strictly greater than `m`; an output
that fits (`len ≤ m`) continues with the state untouched, and an IPv4 input
with DF clear continues whatever the output length. -/
theorem whine_not_continue_iff (h : host) (state : xlation)
    (hc : ∀ s st ic i, (h.drop_icmp s st ic i).1 ≠ VERDICT_CONTINUE) :
    (∀ m, get_nexthop_mtu state.out = some m →
        ∃ r, whine_if_too_big h state = some r
          ∧ (r.1 ≠ VERDICT_CONTINUE ↔
              (skb_is_gso state.in_.skb = false
                ∧ ¬ (pkt_l3_proto state.in_ = L3PROTO_IPV4
                      ∧ is_df_set (pkt_ip4_hdr state.in_) = false)
                ∧ pkt_len state.out > m))
          ∧ (pkt_len state.out ≤ m → r = (VERDICT_CONTINUE, state)))
      ∧ (pkt_l3_proto state.in_ = L3PROTO_IPV4 →
          is_df_set (pkt_ip4_hdr state.in_) = false →
          whine_if_too_big h state = some (VERDICT_CONTINUE, state)) := by
  constructor
  · intro m hm
    cases hg : skb_is_gso state.in_.skb with
    | true =>
      refine ⟨_, whine_gso_cont_aux h state hg, ?_, fun _ => rfl⟩
      simp
    | false =>
      by_cases hdf : pkt_l3_proto state.in_ = L3PROTO_IPV4
          ∧ is_df_set (pkt_ip4_hdr state.in_) = false
      · refine ⟨(VERDICT_CONTINUE, state), ?_, ?_, fun _ => rfl⟩
        · unfold whine_if_too_big handle_gso
          rw [hg]
          simp [hdf.1, hdf.2]
        · simp [hdf.1, hdf.2]
      · rw [whine_past_guards h state m hg hdf hm]
        by_cases hl : pkt_len state.out > m
        · rw [if_pos hl]
          refine ⟨_, rfl, ?_, ?_⟩
          · constructor
            · intro _
              exact ⟨rfl, hdf, hl⟩
            · intro _
              exact hc _ _ _ _
          · intro hle
            omega
        · rw [if_neg hl]
          refine ⟨_, rfl, ?_, fun _ => rfl⟩
          constructor
          · intro hne
            exact absurd rfl hne
          · intro hr
            exact absurd hr.2.2 hl
  · intro hin hdf
    unfold whine_if_too_big handle_gso
    cases hg : skb_is_gso state.in_.skb <;> simp [hin, hdf]

/-- Witness of C9: with the spec-modelled `drop_icmp`, a 1500-byte IPv4 output
of a non-GSO IPv6 input towards MTU 1400 is not continued. -/
theorem whine_not_continue_iff_witness :
    ∃ r, whine_if_too_big (model_host 1400 0)
        (mk_state L3PROTO_IPV6 false 0 L3PROTO_IPV4 1500 true 1400) = some r
      ∧ (r.1 ≠ VERDICT_CONTINUE ↔
          (skb_is_gso (mk_state L3PROTO_IPV6 false 0 L3PROTO_IPV4 1500 true 1400).in_.skb
              = false
            ∧ ¬ (pkt_l3_proto
                  (mk_state L3PROTO_IPV6 false 0 L3PROTO_IPV4 1500 true 1400).in_
                    = L3PROTO_IPV4
                  ∧ is_df_set (pkt_ip4_hdr
                  (mk_state L3PROTO_IPV6 false 0 L3PROTO_IPV4 1500 true 1400).in_)
                    = false)
            ∧ pkt_len (mk_state L3PROTO_IPV6 false 0 L3PROTO_IPV4 1500 true 1400).out
                > 1400))
      ∧ (pkt_len (mk_state L3PROTO_IPV6 false 0 L3PROTO_IPV4 1500 true 1400).out
            ≤ 1400 →
          r = (VERDICT_CONTINUE,
            mk_state L3PROTO_IPV6 false 0 L3PROTO_IPV4 1500 true 1400)) :=
  (whine_not_continue_iff (model_host 1400 0)
    (mk_state L3PROTO_IPV6 false 0 L3PROTO_IPV4 1500 true 1400)
    (fun _ _ _ _ => by simp [model_host, drop_icmp])).1 1400 rfl

/-! ## Properties of `sendpkt_send` -/

/-- Running `sendpkt_send` on the three failure paths: no route, output too
big for the next hop, send routine failing. -/
theorem sendpkt_send_failure_runs :
    sendpkt_send unroutable_host
        (mk_state L3PROTO_IPV6 false 0 L3PROTO_IPV4 1000 true 0) =
      some { result := VERDICT_UNTRANSLATABLE
             state := (untranslatable
               (mk_state L3PROTO_IPV6 false 0 L3PROTO_IPV4 1000 true 0)
               JSTAT_FAILED_ROUTES).2
             calls := [host_call.kfree_skb (mk_skb 1000 0 true 0)] }
      ∧ (sendpkt_send (model_host 1400 0)
          (mk_state L3PROTO_IPV6 false 0 L3PROTO_IPV4 1500 true 0)).map
            (fun r => (r.result, r.state.result, r.state.jool.stats, r.calls.length)) =
        some (VERDICT_DROP, { icmp := ICMPERR_FRAG_NEEDED, info := 1420 },
          [JSTAT_PKT_TOO_BIG], 1)
      ∧ (sendpkt_send (model_host 1500 (-1))
          (mk_state L3PROTO_IPV6 false 0 L3PROTO_IPV4 1000 true 0)).map
            (fun r => (r.result, r.state.result, r.state.jool.stats)) =
        some (VERDICT_DROP, { icmp := ICMPERR_NONE, info := 0 },
          [JSTAT_DST_OUTPUT]) := by
  decide

/-- C6: provided `drop` and `untranslatable` never yield `VERDICT_CONTINUE`,
`sendpkt_send` returns, and it returns `VERDICT_CONTINUE` iff routing
succeeded, `whine_if_too_big` returned `VERDICT_CONTINUE` and `dst_output`
returned 0; `dst_output` is called iff both earlier steps succeeded; a non-zero
error gives `drop(state, JSTAT_DST_OUTPUT)`; a routing failure gives
`untranslatable(state, JSTAT_FAILED_ROUTES)`; a failed MTU check hands its
verdict back unchanged. -/
theorem sendpkt_send_verdict (h : host) (state : xlation)
    (hdrop : ∀ s st, (h.drop s st).1 ≠ VERDICT_CONTINUE)
    (huntr : ∀ s st, (h.untranslatable s st).1 ≠ VERDICT_CONTINUE) :
    ∃ r, sendpkt_send h state = some r
      ∧ (r.result = VERDICT_CONTINUE ↔
          ∃ dst s, h.route state.jool.ns state.out = some dst
            ∧ whine_if_too_big h (routed state dst) = some (VERDICT_CONTINUE, s)
            ∧ h.dst_output (ignoring_df s).jool.ns (ignoring_df s).out.skb = 0)
      ∧ ((∃ ns skb, host_call.dst_output ns skb ∈ r.calls) ↔
          ∃ dst s, h.route state.jool.ns state.out = some dst
            ∧ whine_if_too_big h (routed state dst) = some (VERDICT_CONTINUE, s))
      ∧ (∀ dst s, h.route state.jool.ns state.out = some dst →
          whine_if_too_big h (routed state dst) = some (VERDICT_CONTINUE, s) →
          h.dst_output (ignoring_df s).jool.ns (ignoring_df s).out.skb ≠ 0 →
          (r.result, r.state) = h.drop (ignoring_df s) JSTAT_DST_OUTPUT)
      ∧ (h.route state.jool.ns state.out = none →
          (r.result, r.state) = h.untranslatable state JSTAT_FAILED_ROUTES)
      ∧ (∀ dst v s, h.route state.jool.ns state.out = some dst →
          whine_if_too_big h (routed state dst) = some (v, s) →
          v ≠ VERDICT_CONTINUE → r.result = v ∧ r.state = s) := by
  cases hr : h.route state.jool.ns state.out with
  | none =>
    have e : sendpkt_send h state = some
        { result := (h.untranslatable state JSTAT_FAILED_ROUTES).1,
          state := (h.untranslatable state JSTAT_FAILED_ROUTES).2,
          calls := [host_call.kfree_skb state.out.skb] } := by
      simp only [sendpkt_send, hr]
    refine ⟨_, e, ?_, ?_, ?_, ?_, ?_⟩
    · simpa using huntr state JSTAT_FAILED_ROUTES
    · simp
    · intro dst s hd; cases hd
    · intro _; rfl
    · intro dst v s hd; cases hd
  | some dst =>
    obtain ⟨⟨v, s⟩, hw⟩ := whine_some_of_mtu h (routed state dst) _
      (get_nexthop_mtu_routed state dst)
    by_cases hv : v = VERDICT_CONTINUE
    · subst hv
      by_cases he : h.dst_output (ignoring_df s).jool.ns (ignoring_df s).out.skb = 0
      · have e : sendpkt_send h state = some
            { result := VERDICT_CONTINUE, state := ignoring_df s,
              calls := [host_call.dst_output (ignoring_df s).jool.ns
                (ignoring_df s).out.skb] } := by
          simp only [sendpkt_send, hr, hw]; simp [he]
        refine ⟨_, e, ?_, ?_, ?_, ?_, ?_⟩
        · simp [hw, he]
        · simp [hw]
        · intro d2 s2 hd hw2 hne
          cases hd
          rw [hw] at hw2
          cases hw2
          exact absurd he hne
        · intro hc; cases hc
        · intro d2 v2 s2 hd hw2 hne
          cases hd
          rw [hw] at hw2
          cases hw2
          exact absurd rfl hne
      · have e : sendpkt_send h state = some
            { result := (h.drop (ignoring_df s) JSTAT_DST_OUTPUT).1,
              state := (h.drop (ignoring_df s) JSTAT_DST_OUTPUT).2,
              calls := [host_call.dst_output (ignoring_df s).jool.ns
                (ignoring_df s).out.skb] } := by
          simp only [sendpkt_send, hr, hw]; simp [he]
        refine ⟨_, e, ?_, ?_, ?_, ?_, ?_⟩
        · simp [hw, he]
          exact hdrop _ _
        · simp [hw]
        · intro d2 s2 hd hw2 _
          cases hd
          rw [hw] at hw2
          cases hw2
          rfl
        · intro hc; cases hc
        · intro d2 v2 s2 hd hw2 hne
          cases hd
          rw [hw] at hw2
          cases hw2
          exact absurd rfl hne
    · have e : sendpkt_send h state = some
          { result := v, state := s,
            calls := [host_call.kfree_skb s.out.skb] } := by
        simp only [sendpkt_send, hr, hw]; simp [hv]
      refine ⟨_, e, ?_, ?_, ?_, ?_, ?_⟩
      · simp [hw, hv]
      · simp [hw, hv]
      · intro d2 s2 hd hw2 _
        cases hd
        rw [hw] at hw2
        cases hw2
        exact absurd rfl hv
      · intro hc; cases hc
      · intro d2 v2 s2 hd hw2 _
        cases hd
        rw [hw] at hw2
        cases hw2
        exact ⟨rfl, rfl⟩

/-- Witness of C6: a 1000-byte IPv4 output routed towards MTU 1500 and accepted
by `dst_output` yields `VERDICT_CONTINUE` after one call to the send
routine. -/
theorem sendpkt_send_verdict_witness :
    ∃ r, sendpkt_send (model_host 1500 0)
        (mk_state L3PROTO_IPV6 false 0 L3PROTO_IPV4 1000 true 0) = some r
      ∧ r.result = VERDICT_CONTINUE := by
  obtain ⟨r, hr, hiff, _⟩ := sendpkt_send_verdict (model_host 1500 0)
    (mk_state L3PROTO_IPV6 false 0 L3PROTO_IPV4 1000 true 0)
    (fun _ _ => by simp [model_host, drop])
    (fun _ _ => by simp [model_host, untranslatable])
  exact ⟨r, hr, hiff.mpr ⟨_, _, rfl, rfl, rfl⟩⟩

/-! ## Properties of `interface_contains` -/

/-- Counterexample to C5 as stated: 192.0.2.1 is the local address of a /32
record on the first device and of a /24 record on the second one, so it equals
the local address of a record whose prefix length is not 32, yet
`interface_contains` returns false. -/
theorem interface_contains_local_counterexample :
    ({ ifa_local := 0xc0000201, ifa_mask := 0xffffff00, ifa_prefixlen := 24 }
        : in_ifaddr) ∈
        all_ifaddrs (mk_net
          [[{ ifa_local := 0xc0000201, ifa_mask := 0xffffffff, ifa_prefixlen := 32 }],
           [{ ifa_local := 0xc0000201, ifa_mask := 0xffffff00, ifa_prefixlen := 24 }]])
      ∧ interface_contains (mk_net
          [[{ ifa_local := 0xc0000201, ifa_mask := 0xffffffff, ifa_prefixlen := 32 }],
           [{ ifa_local := 0xc0000201, ifa_mask := 0xffffff00, ifa_prefixlen := 24 }]])
          { s_addr := 0xc0000201 } = false := by
  decide

/-- C5, amended: `interface_contains(ns, a)` returns true whenever `a` equals
the local address of some record whose prefix length is not 32 and no record
visited before it has local address `a` with prefix length 32; it returns false
when the only records whose local address equals `a` have prefix length 32 and
`a` is the directed broadcast of no record of prefix length below 31. -/
theorem interface_contains_local (ns : net) (addr : in_addr) :
    (∀ pre r post, all_ifaddrs ns = pre ++ r :: post →
        r.ifa_local = addr.s_addr → r.ifa_prefixlen ≠ 32 →
        (∀ p ∈ pre, ¬ (p.ifa_local = addr.s_addr ∧ p.ifa_prefixlen = 32)) →
        interface_contains ns addr = true)
      ∧ ((∀ r ∈ all_ifaddrs ns, r.ifa_local = addr.s_addr → r.ifa_prefixlen = 32) →
        (∀ r ∈ all_ifaddrs ns, r.ifa_prefixlen < 31 →
          directed_broadcast r ≠ addr.s_addr) →
        interface_contains ns addr = false) := by
  constructor
  · intro pre r post hsplit hloc hlen hpre
    rw [interface_contains_eq_scan, hsplit,
      scan_hit addr pre r post (Or.inl ⟨hloc, hlen⟩) hpre]
    rfl
  · intro h32 hb
    rw [interface_contains_eq_scan]
    have := scan_never_true addr (all_ifaddrs ns) h32 hb
    cases hs : scan_ifa_list addr (all_ifaddrs ns) with
    | none => rfl
    | some b =>
      cases b with
      | false => rfl
      | true => exact absurd hs this

/-- Witness of C5 (amended): 192.0.2.1/24 on the second device is reported as
not translatable, while 127.0.0.1, only present as a /32, is translatable. -/
theorem interface_contains_local_witness :
    interface_contains (mk_net
        [[{ ifa_local := 0x7f000001, ifa_mask := 0xffffffff, ifa_prefixlen := 32 }],
         [{ ifa_local := 0xc0000201, ifa_mask := 0xffffff00, ifa_prefixlen := 24 }]])
        { s_addr := 0xc0000201 } = true
      ∧ interface_contains (mk_net
        [[{ ifa_local := 0x7f000001, ifa_mask := 0xffffffff, ifa_prefixlen := 32 }],
         [{ ifa_local := 0xc0000201, ifa_mask := 0xffffff00, ifa_prefixlen := 24 }]])
        { s_addr := 0x7f000001 } = false :=
  ⟨(interface_contains_local _ { s_addr := 0xc0000201 }).1
      [{ ifa_local := 0x7f000001, ifa_mask := 0xffffffff, ifa_prefixlen := 32 }]
      { ifa_local := 0xc0000201, ifa_mask := 0xffffff00, ifa_prefixlen := 24 } []
      (by decide) (by decide) (by decide) (by decide),
    (interface_contains_local _ { s_addr := 0x7f000001 }).2
      (by decide) (by decide)⟩

/-- Counterexample to C8 as stated: 192.0.2.255 is the directed broadcast of
the record 192.0.2.1/24, but it is also the local address of a /32 record
visited first, and `interface_contains` returns false. -/
theorem interface_contains_broadcast_counterexample :
    ({ ifa_local := 0xc0000201, ifa_mask := 0xffffff00, ifa_prefixlen := 24 }
        : in_ifaddr) ∈
        all_ifaddrs (mk_net
          [[{ ifa_local := 0xc00002ff, ifa_mask := 0xffffffff, ifa_prefixlen := 32 },
            { ifa_local := 0xc0000201, ifa_mask := 0xffffff00, ifa_prefixlen := 24 }]])
      ∧ directed_broadcast
          { ifa_local := 0xc0000201, ifa_mask := 0xffffff00, ifa_prefixlen := 24 }
        = 0xc00002ff
      ∧ interface_contains (mk_net
          [[{ ifa_local := 0xc00002ff, ifa_mask := 0xffffffff, ifa_prefixlen := 32 },
            { ifa_local := 0xc0000201, ifa_mask := 0xffffff00, ifa_prefixlen := 24 }]])
          { s_addr := 0xc00002ff } = false := by
  decide

/-- C8, amended: `interface_contains` returns true whenever some record with
prefix length below 31 has directed broadcast address
(`ifa_local | ~ifa_mask`) equal to `a` and no record visited before it has
local address `a` with prefix length 32. -/
theorem interface_contains_broadcast (ns : net) (addr : in_addr)
    (pre : List in_ifaddr) (r : in_ifaddr) (post : List in_ifaddr)
    (hsplit : all_ifaddrs ns = pre ++ r :: post)
    (hlen : r.ifa_prefixlen < 31)
    (hb : directed_broadcast r = addr.s_addr)
    (hpre : ∀ p ∈ pre, ¬ (p.ifa_local = addr.s_addr ∧ p.ifa_prefixlen = 32)) :
    interface_contains ns addr = true := by
  rw [interface_contains_eq_scan, hsplit,
    scan_hit addr pre r post (Or.inr ⟨hlen, hb⟩) hpre]
  rfl

/-- Witness of C8 (amended): 192.0.2.255 is the directed broadcast of
192.0.2.1/24, visited after an unrelated /32 record. -/
theorem interface_contains_broadcast_witness :
    interface_contains (mk_net
        [[{ ifa_local := 0x7f000001, ifa_mask := 0xffffffff, ifa_prefixlen := 32 }],
         [{ ifa_local := 0xc0000201, ifa_mask := 0xffffff00, ifa_prefixlen := 24 }]])
      { s_addr := 0xc00002ff } = true :=
  interface_contains_broadcast _ { s_addr := 0xc00002ff }
    [{ ifa_local := 0x7f000001, ifa_mask := 0xffffffff, ifa_prefixlen := 32 }]
    { ifa_local := 0xc0000201, ifa_mask := 0xffffff00, ifa_prefixlen := 24 } []
    (by decide) (by decide) (by decide) (by decide)

/-! ## Properties of `session.c` -/

/-- Running `handle_session_display` over a two-session table: without an
offset both sessions are sent, with the first session as offset only the second
one is, a buffer of one record leaves data pending, and a failed buffer
initialisation is answered with its error code without walking the table. -/
theorem handle_session_display_runs :
    (handle_session_display (model_kernel 1000)
        (model_nl [mk_session 1000 900 200, mk_session 1001 900 200] 16 0)
        { ns := { devices := [] }, stats := [] } 0
        { l4_proto := l4_protocol.L4PROTO_TCP,
          foreach := { offset_set := false,
                       offset := { src := { l3 := 0, l4 := 0 },
                                   dst := { l3 := 0, l4 := 0 } } } }).sent.map
        (fun b => (b.1.map (fun r => (r.src4.l4, r.dying_time)), b.2)) =
      some ([(1000, 400), (1001, 400)], false)
      ∧ (handle_session_display (model_kernel 1000)
        (model_nl [mk_session 1000 900 200, mk_session 1001 900 200] 16 0)
        { ns := { devices := [] }, stats := [] } 0
        { l4_proto := l4_protocol.L4PROTO_TCP,
          foreach := { offset_set := true,
                       offset := { src := { l3 := 0xcb00710a, l4 := 1000 },
                                   dst := { l3 := 0xc6336402, l4 := 80 } } } }).sent.map
        (fun b => (b.1.map (fun r => (r.src4.l4, r.dying_time)), b.2)) =
      some ([(1001, 400)], false)
      ∧ (handle_session_display (model_kernel 1000)
        (model_nl [mk_session 1000 900 200, mk_session 1001 900 200] 1 0)
        { ns := { devices := [] }, stats := [] } 0
        { l4_proto := l4_protocol.L4PROTO_TCP,
          foreach := { offset_set := false,
                       offset := { src := { l3 := 0, l4 := 0 },
                                   dst := { l3 := 0, l4 := 0 } } } }).sent.map
        (fun b => (b.1.map (fun r => (r.src4.l4, r.dying_time)), b.2)) =
      some ([(1000, 400)], true)
      ∧ handle_session_display (model_kernel 1000)
        (model_nl [mk_session 1000 900 200, mk_session 1001 900 200] 16 (-12))
        { ns := { devices := [] }, stats := [] } 0
        { l4_proto := l4_protocol.L4PROTO_TCP,
          foreach := { offset_set := true,
                       offset := { src := { l3 := 0xcb00710a, l4 := 1000 },
                                   dst := { l3 := 0xc6336402, l4 := 80 } } } } =
      { error := -12, sent := none, foreach_calls := [] } := by
  decide

/-- C7: when the response buffer could be initialised, `handle_session_display`
answers with what the one call
`bib_foreach_session(jool, l4_proto, session_entry_to_userspace, offset)`
produced, where `offset` is the request offset with `include_offset = false`
when `offset_set` is true and no offset (NULL) when `offset_set` is false: the
buffer that call filled is the one sent, and its result decides between
`nlbuffer_send` and `nlcore_respond`.  When the buffer could not be initialised
no call is made.  No call ever asks for the offset entry to be included. -/
theorem handle_session_display_offset {β : Type} (k : kernel) (nl : nl_core β)
    (jool : xlator) (info : genl_info) (request : request_session) :
    ((nl.nlbuffer_init_response info nl.nlbuffer_response_max_size).1 = 0 →
        (request.foreach.offset_set = true →
          ∀ walk, walk = nl.bib_foreach_session jool request.l4_proto
              (session_entry_to_userspace k nl)
              (nl.nlbuffer_init_response info nl.nlbuffer_response_max_size).2
              (some { offset := request.foreach.offset, include_offset := false }) →
            handle_session_display k nl jool info request =
              { error :=
                  if walk.1 ≥ 0 then
                    nl.nlbuffer_send info
                      (nl.nlbuffer_set_pending_data walk.2 (decide (walk.1 > 0)))
                  else nl.nlcore_respond info walk.1
                sent :=
                  if walk.1 ≥ 0 then
                    some (nl.nlbuffer_set_pending_data walk.2 (decide (walk.1 > 0)))
                  else none
                foreach_calls :=
                  [(request.l4_proto,
                    some { offset := request.foreach.offset,
                           include_offset := false })] })
        ∧ (request.foreach.offset_set = false →
          ∀ walk, walk = nl.bib_foreach_session jool request.l4_proto
              (session_entry_to_userspace k nl)
              (nl.nlbuffer_init_response info nl.nlbuffer_response_max_size).2
              none →
            handle_session_display k nl jool info request =
              { error :=
                  if walk.1 ≥ 0 then
                    nl.nlbuffer_send info
                      (nl.nlbuffer_set_pending_data walk.2 (decide (walk.1 > 0)))
                  else nl.nlcore_respond info walk.1
                sent :=
                  if walk.1 ≥ 0 then
                    some (nl.nlbuffer_set_pending_data walk.2 (decide (walk.1 > 0)))
                  else none
                foreach_calls := [(request.l4_proto, none)] }))
      ∧ ((nl.nlbuffer_init_response info nl.nlbuffer_response_max_size).1 ≠ 0 →
        handle_session_display k nl jool info request =
          { error := nl.nlcore_respond info
              (nl.nlbuffer_init_response info nl.nlbuffer_response_max_size).1
            sent := none
            foreach_calls := [] })
      ∧ (∀ proto offset,
          (proto, some offset) ∈
            (handle_session_display k nl jool info request).foreach_calls →
          offset.include_offset = false
            ∧ offset.offset = request.foreach.offset
            ∧ request.foreach.offset_set = true) := by
  refine ⟨?_, ?_, ?_⟩
  · intro hi
    constructor
    · intro ho walk hw
      subst hw
      unfold handle_session_display
      simp only [hi, ho, ne_eq, not_true_eq_false, if_false, if_true]
      split <;> rfl
    · intro ho walk hw
      subst hw
      unfold handle_session_display
      simp only [hi, ho, ne_eq, not_true_eq_false, if_false, Bool.false_eq_true]
      split <;> rfl
  · intro hi
    unfold handle_session_display
    simp only [ne_eq, hi, not_false_eq_true, if_true]
  · intro proto offset hmem
    unfold handle_session_display at hmem
    by_cases hi : (nl.nlbuffer_init_response info nl.nlbuffer_response_max_size).1 = 0
    · cases ho : request.foreach.offset_set
      · simp only [hi, ho, ne_eq, not_true_eq_false, if_false,
          Bool.false_eq_true] at hmem
        split at hmem <;> simp at hmem
      · simp only [hi, ho, ne_eq, not_true_eq_false, if_false, if_true] at hmem
        split at hmem <;>
          · simp at hmem
            obtain ⟨_, hoff⟩ := hmem
            subst hoff
            exact ⟨rfl, rfl, rfl⟩
    · simp [hi] at hmem

/-- Witness of C7: over a table of two sessions, a request whose offset is the
first session makes one walk with that offset and `include_offset = false`, and
the buffer sent holds the second session only. -/
theorem handle_session_display_offset_witness :
    handle_session_display (model_kernel 1000)
        (model_nl [mk_session 1000 900 200, mk_session 1001 900 200] 16 0)
        { ns := { devices := [] }, stats := [] } 0
        { l4_proto := l4_protocol.L4PROTO_TCP,
          foreach := { offset_set := true,
                       offset := { src := { l3 := 0xcb00710a, l4 := 1000 },
                                   dst := { l3 := 0xc6336402, l4 := 80 } } } } =
      { error := 0
        sent := some
          ([{ src6 := { l3 := 0x20010db8000000000000000000000001, l4 := 1001 }
              dst6 := { l3 := 0x0064ff9b0000000000000000c6336402, l4 := 80 }
              src4 := { l3 := 0xcb00710a, l4 := 1001 }
              dst4 := { l3 := 0xc6336402, l4 := 80 }
              state := 3
              dying_time := 400 }], false)
        foreach_calls :=
          [(l4_protocol.L4PROTO_TCP,
            some { offset := { src := { l3 := 0xcb00710a, l4 := 1000 },
                               dst := { l3 := 0xc6336402, l4 := 80 } },
                   include_offset := false })] } :=
  (((handle_session_display_offset (model_kernel 1000)
      (model_nl [mk_session 1000 900 200, mk_session 1001 900 200] 16 0)
      { ns := { devices := [] }, stats := [] } 0
      { l4_proto := l4_protocol.L4PROTO_TCP,
        foreach := { offset_set := true,
                     offset := { src := { l3 := 0xcb00710a, l4 := 1000 },
                                 dst := { l3 := 0xc6336402, l4 := 80 } } } }).1
    rfl).1 rfl _ rfl).trans (by decide)

/-- Counterexample to C10 as stated.  First, on a 64-bit kernel at 250 Hz whose
clock reads 0, a session with `update_time = 0` and `timeout = 2 ^ 30` is not
due and its sum does not wrap, yet the reported dying time is 0, because
`jiffies_to_msecs` returns an `unsigned int`.  Second, when the clock ticks from
999 to 1001 between the two reads of `jiffies`, a session due at tick 1000
passes the comparison and the subtraction `1000 - 1001` underflows to
`2 ^ 64 - 1`, reported as 4294967292 ms. -/
theorem session_entry_to_userspace_counterexample :
    ((mk_session 1000 0 (2 ^ 30)).update_time + (mk_session 1000 0 (2 ^ 30)).timeout
        < 2 ^ (model_kernel 0).BITS_PER_LONG
      ∧ ¬ ((model_kernel 0).jiffies 0 ≥
          (mk_session 1000 0 (2 ^ 30)).update_time + (mk_session 1000 0 (2 ^ 30)).timeout)
      ∧ (model_kernel 0).jiffies 1 = (model_kernel 0).jiffies 0
      ∧ (session_entry_to_userspace (model_kernel 0) (model_nl [] 16 0)
          (mk_session 1000 0 (2 ^ 30)) ([], false)).2.1.map
            (fun r => r.dying_time) = [0])
      ∧ (ulong_sub 64 1000 ((ticking_kernel 999 1001).jiffies 1) = 2 ^ 64 - 1
        ∧ (session_entry_to_userspace (ticking_kernel 999 1001) (model_nl [] 16 0)
          (mk_session 1000 900 100) ([], false)).2.1.map
            (fun r => r.dying_time) = [4294967292]) := by
  decide

/-- C10, amended: for every session entry and every current time `now` that
both reads of `jiffies` return, `session_entry_to_userspace` hands
`nlbuffer_write` a record whose `src6`, `dst6`, `src4`, `dst4` and `state` are
the entry's and whose `dying_time` is 0 when `update_time + timeout ≤ now` and
`jiffies_to_msecs(update_time + timeout - now)` otherwise, the sum wrapping at
the width of `unsigned long`; the subtraction does not underflow (the modular
difference is the exact positive difference); when the sum does not wrap the
reported dying time is 0 exactly when the session is already due
(`now ≥ update_time + timeout`) or `jiffies_to_msecs` returns 0 for its positive
remaining tick count. -/
theorem session_entry_to_userspace_record {β : Type} (k : kernel) (nl : nl_core β)
    (entry : session_entry) (buffer : β) (now : Nat)
    (h0 : k.jiffies 0 = now) (h1 : k.jiffies 1 = now) :
    session_entry_to_userspace k nl entry buffer =
        nl.nlbuffer_write buffer
          { src6 := entry.src6
            dst6 := entry.dst6
            src4 := entry.src4
            dst4 := entry.dst4
            state := entry.state
            dying_time :=
              if (entry.update_time + entry.timeout) % 2 ^ k.BITS_PER_LONG ≤ now
              then 0
              else k.jiffies_to_msecs
                ((entry.update_time + entry.timeout) % 2 ^ k.BITS_PER_LONG - now) }
      ∧ (now < (entry.update_time + entry.timeout) % 2 ^ k.BITS_PER_LONG →
          ulong_sub k.BITS_PER_LONG
              ((entry.update_time + entry.timeout) % 2 ^ k.BITS_PER_LONG)
              (k.jiffies 1) =
            (entry.update_time + entry.timeout) % 2 ^ k.BITS_PER_LONG - now
          ∧ 0 < (entry.update_time + entry.timeout) % 2 ^ k.BITS_PER_LONG - now)
      ∧ (entry.update_time + entry.timeout < 2 ^ k.BITS_PER_LONG →
          (if (entry.update_time + entry.timeout) % 2 ^ k.BITS_PER_LONG ≤ now
            then 0
            else k.jiffies_to_msecs
              ((entry.update_time + entry.timeout) % 2 ^ k.BITS_PER_LONG - now))
            = (if entry.update_time + entry.timeout ≤ now then 0
               else k.jiffies_to_msecs (entry.update_time + entry.timeout - now))
          ∧ ((if (entry.update_time + entry.timeout) % 2 ^ k.BITS_PER_LONG ≤ now
              then 0
              else k.jiffies_to_msecs
                ((entry.update_time + entry.timeout) % 2 ^ k.BITS_PER_LONG - now)) = 0
              ↔ (now ≥ entry.update_time + entry.timeout
                ∨ (now < entry.update_time + entry.timeout
                  ∧ k.jiffies_to_msecs
                      (entry.update_time + entry.timeout - now) = 0)))) := by
  have hsub : now < (entry.update_time + entry.timeout) % 2 ^ k.BITS_PER_LONG →
      ulong_sub k.BITS_PER_LONG
          ((entry.update_time + entry.timeout) % 2 ^ k.BITS_PER_LONG) (k.jiffies 1) =
        (entry.update_time + entry.timeout) % 2 ^ k.BITS_PER_LONG - now := by
    intro hlt
    rw [h1]
    exact ulong_sub_exact _ _ _ (Nat.mod_lt _ (Nat.two_pow_pos _)) (Nat.le_of_lt hlt)
  refine ⟨?_, ?_, ?_⟩
  · unfold session_entry_to_userspace
    simp only [h0]
    by_cases hd : (entry.update_time + entry.timeout) % 2 ^ k.BITS_PER_LONG ≤ now
    · have : ¬ (entry.update_time + entry.timeout) % 2 ^ k.BITS_PER_LONG > now := by
        omega
      rw [if_neg this, if_pos hd]
    · have hgt : (entry.update_time + entry.timeout) % 2 ^ k.BITS_PER_LONG > now := by
        omega
      rw [if_pos hgt, if_neg hd, hsub hgt]
  · intro hlt
    exact ⟨hsub hlt, by omega⟩
  · intro hnw
    rw [Nat.mod_eq_of_lt hnw]
    refine ⟨rfl, ?_⟩
    by_cases hd : entry.update_time + entry.timeout ≤ now
    · simp [hd]
    · rw [if_neg hd]
      constructor
      · intro h0
        exact Or.inr ⟨by omega, h0⟩
      · intro hor
        rcases hor with hge | ⟨_, hz⟩
        · exact absurd hge hd
        · exact hz

/-- Witness of C10 (amended): a session refreshed at tick 900 with a timeout of
200 ticks, dumped at tick 1000 on a 250 Hz kernel, reports 400 ms. -/
theorem session_entry_to_userspace_record_witness :
    session_entry_to_userspace (model_kernel 1000)
        (model_nl [] 16 0) (mk_session 1000 900 200) ([], false) =
      (0, ([{ src6 := { l3 := 0x20010db8000000000000000000000001, l4 := 1000 }
              dst6 := { l3 := 0x0064ff9b0000000000000000c6336402, l4 := 80 }
              src4 := { l3 := 0xcb00710a, l4 := 1000 }
              dst4 := { l3 := 0xc6336402, l4 := 80 }
              state := 3
              dying_time := 400 }], false)) :=
  (session_entry_to_userspace_record (model_kernel 1000) (model_nl [] 16 0)
    (mk_session 1000 900 200) ([], false) 1000 rfl rfl).1.trans (by decide)

end Jool
